import Mathlib

/-!
Shallow embedding of `src/soundbar_tone_player.py` (class `TonePlayer`).

The in-memory settings dict is modelled as a record with optional fields
(a field is `none` when the corresponding key is absent from the dict).
The settings file at the resolved path is modelled as `Option Settings`
(`none` = the file does not exist; `some s` = the file exists and parses
to the record `s`).  The filesystem for audio files is a list of existing
paths; path joining `base / name` is modelled as string concatenation
with `/`.  External collaborators (sounddevice playback, the tray icon,
the Windows registry) appear as explicit inputs or small state records.
-/

namespace Soundbar

/-- The settings record: the two recognized keys of the JSON dict.
A `none` field means the key is absent from the parsed dict. -/
structure Settings where
  tone_file : Option String
  interval_minutes : Option Nat
deriving DecidableEq, Repr

/-- `default_settings` dict created by `load_settings` when the file is missing. -/
def default_settings : Settings :=
  { tone_file := some "tone.wav", interval_minutes := some 10 }

/-- `self.settings.get("tone_file", "tone.wav")` in `get_audio_path`. -/
def Settings.getToneFile (s : Settings) : String :=
  s.tone_file.getD "tone.wav"

/-- `self.settings.get("interval_minutes", 10)` in `timer_loop` and `start_timer`. -/
def Settings.getIntervalMinutes (s : Settings) : Nat :=
  s.interval_minutes.getD 10

/-- `json.dump(settings, f, indent=4)` for a settings dict whose keys appear
in insertion order `tone_file`, `interval_minutes` (keys absent from the
dict are not serialized). -/
def dump_settings (s : Settings) : String :=
  let fields : List String :=
    (match s.tone_file with
      | some t => ["\"tone_file\": \"" ++ t ++ "\""]
      | none => []) ++
    (match s.interval_minutes with
      | some n => ["\"interval_minutes\": " ++ toString n]
      | none => [])
  if fields = [] then "\x7b\x7d"
  else "\x7b\n" ++ String.intercalate ",\n" (fields.map (fun f => "    " ++ f)) ++ "\n\x7d"

/-- `TonePlayer.load_settings`: if the settings file does not exist, write the
default record to it and return the defaults; otherwise parse the file and
return the parsed record unchanged.  Result: (returned record, file after). -/
def load_settings (file : Option Settings) : Settings × Option Settings :=
  match file with
  | none => (default_settings, some default_settings)
  | some s => (s, some s)

/-- `TonePlayer.get_audio_path`: join the base path with
`settings.get("tone_file", "tone.wav")`. -/
def get_audio_path (base : String) (s : Settings) : String :=
  base ++ "/" ++ s.getToneFile

/-- Outcome of the external audio collaborator (`sf.read` + `sd.play`/`sd.wait`)
once the file exists: success, a `RuntimeError` (decode/playback failure
caught by the inner handler), or any other exception (caught by the outer
handler of `play_audio`). -/
inductive AudioResult where
  | success
  | runtimeError (msg : String)
  | otherError (msg : String)
deriving DecidableEq, Repr

/-- A user-visible `icon.notify` message emitted by `play_audio`. -/
inductive Notification where
  | fileNotFound
  | playbackError
  | genericError
deriving DecidableEq, Repr

/-- Observable outcome of one `play_audio` call: the returned boolean, the
`icon.notify` notifications emitted, and whether an exception escaped to
the caller. -/
structure PlayResult where
  returned : Bool
  notifications : List Notification
  raised : Bool
deriving DecidableEq, Repr

/-- `TonePlayer.play_audio`.  `fs` is the set of existing file paths, `icon`
is whether `self.icon` is set (truthy).  Every branch of the Python body is
covered by the inner `except RuntimeError` or the outer `except Exception`,
so no branch raises to the caller. -/
def play_audio (fs : List String) (base : String) (s : Settings)
    (icon : Bool) (audio : AudioResult) : PlayResult :=
  let path := get_audio_path base s
  if path ∈ fs then
    match audio with
    | .success =>
        { returned := true, notifications := [], raised := false }
    | .runtimeError _ =>
        { returned := false,
          notifications := if icon then [.playbackError] else [],
          raised := false }
    | .otherError _ =>
        { returned := false,
          notifications := if icon then [.genericError] else [],
          raised := false }
  else
    { returned := false,
      notifications := if icon then [.fileNotFound] else [],
      raised := false }

/-- Events of the background `timer_loop` thread: one playback attempt, or one
`time.sleep(1)` tick of the cancellable wait. -/
inductive LoopEvent where
  | play
  | sleep1
deriving DecidableEq, Repr

/-- The inner wait of `timer_loop`
(`for _ in range(int(interval_seconds)): if not self.running: break; time.sleep(1)`)
as the list of 1-second sleep ticks it performs.  `running i` is the value of
`self.running` observed at the i-th check; the loop breaks at the first check
that observes `false`. -/
def wait_trace : Nat → (Nat → Bool) → List LoopEvent
  | 0, _ => []
  | n + 1, running =>
      if running 0 then LoopEvent.sleep1 :: wait_trace n (fun i => running (i + 1))
      else []

/-- Number of whole seconds the inner wait of `timer_loop` sleeps. -/
def wait_loop (n : Nat) (running : Nat → Bool) : Nat :=
  (wait_trace n running).length

/-- Event trace of `fuel` iterations of `timer_loop` when `self.running` stays
true throughout and the settings record is `s`: each cycle reads
`interval_minutes` fresh (default 10), attempts one playback, then sleeps
`interval_minutes * 60` one-second ticks. -/
def timer_loop_trace (s : Settings) : Nat → List LoopEvent
  | 0 => []
  | fuel + 1 =>
      LoopEvent.play ::
        (wait_trace (s.getIntervalMinutes * 60) (fun _ => true) ++ timer_loop_trace s fuel)

/-- In-memory `TonePlayer` state: the settings dict, the `running` flag,
whether `self.timer_thread` is non-null, and whether `self.icon` is set. -/
structure PlayerState where
  settings : Settings
  running : Bool
  timer_thread : Bool
  icon : Bool
deriving DecidableEq, Repr

/-- Side effects the commands perform, in order of emission. -/
inductive Action where
  | saveSettings (s : Settings)
  | startLoop
  | stopLoop
  | pauseHalf
  | menuRefresh
  | notifyStarted (interval : Nat)
  | notifyIntervalUpdated (minutes : Nat)
deriving DecidableEq, Repr

/-- `TonePlayer.start_timer`: only acts when not running; sets the flag, spawns
the loop thread, and (if the icon exists) notifies with the current interval. -/
def start_timer (p : PlayerState) : PlayerState × List Action :=
  if p.running then (p, [])
  else
    ({ p with running := true, timer_thread := true },
      [Action.startLoop] ++
        (if p.icon then [Action.notifyStarted p.settings.getIntervalMinutes] else []))

/-- `TonePlayer.stop_timer`: only acts when running; clears the flag and joins
the thread.  Note that `self.timer_thread` is NOT reset to `None`. -/
def stop_timer (p : PlayerState) : PlayerState × List Action :=
  if p.running then ({ p with running := false }, [Action.stopLoop])
  else (p, [])

/-- Player state together with the settings file at the resolved path. -/
structure SysState where
  player : PlayerState
  file : Option Settings
deriving DecidableEq, Repr

/-- `TonePlayer.set_interval`: write `interval_minutes` into the dict, save the
full record to the file, then if the loop was running do
stop / 0.5s pause / start, else refresh the menu (when the icon exists);
finally notify "Interval Updated" (when the icon exists). -/
def set_interval (st : SysState) (minutes : Nat) : SysState × List Action :=
  let s' : Settings := { st.player.settings with interval_minutes := some minutes }
  let p0 : PlayerState := { st.player with settings := s' }
  let st0 : SysState := { player := p0, file := some s' }
  if p0.running then
    let (p1, a1) := stop_timer p0
    let (p2, a2) := start_timer p1
    ({ st0 with player := p2 },
      [Action.saveSettings s'] ++ a1 ++ [Action.pauseHalf] ++ a2 ++
        (if p2.icon then [Action.notifyIntervalUpdated minutes] else []))
  else
    (st0,
      [Action.saveSettings s'] ++
        (if p0.icon then [Action.menuRefresh] else []) ++
        (if p0.icon then [Action.notifyIntervalUpdated minutes] else []))

/-- `TonePlayer.__init__`: load (possibly creating) the settings file; the loop
starts stopped with a null thread handle and no icon yet. -/
def init_player (file : Option Settings) : SysState :=
  let r := load_settings file
  { player := { settings := r.1, running := false, timer_thread := false, icon := false },
    file := r.2 }

/-- The commands whose reachable states claim C6 ranges over. -/
inductive Op where
  | start
  | stop
  | setInterval (v : Nat)
deriving DecidableEq, Repr

/-- Apply one command to the system state (effects discarded). -/
def applyOp (st : SysState) : Op → SysState
  | .start => { st with player := (start_timer st.player).1 }
  | .stop => { st with player := (stop_timer st.player).1 }
  | .setInterval v => (set_interval st v).1

/-- Run a sequence of commands from a state. -/
def runOps (st : SysState) (ops : List Op) : SysState :=
  ops.foldl applyOp st

/-- Per-cycle environment of the background loop: the settings record read at
the top of the cycle, the filesystem, base path, icon presence, and the audio
collaborator's outcome for this cycle's playback attempt. -/
structure CycleEnv where
  settings : Settings
  fs : List String
  base : String
  icon : Bool
  audio : AudioResult
deriving DecidableEq, Repr

/-- How a bounded run of `timer_loop` ended. -/
inductive LoopStatus where
  | stillRunning
  | stoppedFlag
  | crashed
deriving DecidableEq, Repr

/-- Up to `fuel` cycles of `timer_loop`: at the top of cycle `i` the `while
self.running` check observes `running i`; if true the cycle calls
`play_audio` in environment `env i` (a cycle whose playback raised would kill
the thread, recorded as `crashed`) and continues.  Returns the final status
and the number of playback attempts made. -/
def timer_loop_run : Nat → (Nat → Bool) → (Nat → CycleEnv) → LoopStatus × Nat
  | 0, _, _ => (LoopStatus.stillRunning, 0)
  | fuel + 1, running, env =>
      if running 0 then
        let e := env 0
        let r := play_audio e.fs e.base e.settings e.icon e.audio
        if r.raised then (LoopStatus.crashed, 1)
        else
          let rest := timer_loop_run fuel (fun i => running (i + 1)) (fun i => env (i + 1))
          (rest.1, rest.2 + 1)
      else (LoopStatus.stoppedFlag, 0)

/-- The autostart registry: the value of the single named entry
`SoundbarTonePlayer` under the per-user Run key (`none` = entry absent). -/
structure Registry where
  entry : Option String
deriving DecidableEq, Repr

/-- `TonePlayer.is_startup_enabled`: `QueryValueEx` succeeds iff the entry
exists. -/
def is_startup_enabled (r : Registry) : Bool :=
  r.entry.isSome

/-- The command line `'"python_exe" "script_path"'` written by
`toggle_startup` when enabling. -/
def startup_command (python_exe script_path : String) : String :=
  "\"" ++ python_exe ++ "\" \"" ++ script_path ++ "\""

/-- `TonePlayer.toggle_startup` (registry access succeeding): delete the entry
if it exists, else write the startup command as the entry. -/
def toggle_startup (r : Registry) (cmd : String) : Registry :=
  if is_startup_enabled r then { entry := none }
  else { entry := some cmd }

/-! Helper lemmas shared by the claims. -/

theorem wait_trace_const_true (n : Nat) :
    wait_trace n (fun _ => true) = List.replicate n LoopEvent.sleep1 := by
  induction n with
  | zero => rfl
  | succ n ih => simp [wait_trace, ih, List.replicate_succ]

theorem wait_trace_of_true (n : Nat) (running : Nat → Bool) (h : ∀ i, running i = true) :
    wait_trace n running = List.replicate n LoopEvent.sleep1 := by
  induction n generalizing running with
  | zero => rfl
  | succ n ih =>
      rw [wait_trace, if_pos (h 0), ih (fun i => running (i + 1)) (fun i => h (i + 1))]
      rfl

theorem wait_loop_le_of_false (n : Nat) (running : Nat → Bool) (k : Nat)
    (h : running k = false) : wait_loop n running ≤ k := by
  induction n generalizing running k with
  | zero => exact Nat.zero_le k
  | succ n ih =>
      by_cases h0 : running 0 = true
      · cases k with
        | zero => rw [h0] at h; cases h
        | succ k =>
            have hk := ih (fun i => running (i + 1)) k h
            have : wait_loop (n + 1) running = wait_loop n (fun i => running (i + 1)) + 1 := by
              simp [wait_loop, wait_trace, h0]
            omega
      · have h0' : running 0 = false := by
          cases hval : running 0
          · rfl
          · exact absurd hval h0
        simp [wait_loop, wait_trace, h0']

theorem play_audio_never_raises (fs : List String) (base : String) (s : Settings)
    (icon : Bool) (audio : AudioResult) : (play_audio fs base s icon audio).raised = false := by
  unfold play_audio
  by_cases h : get_audio_path base s ∈ fs <;> cases audio <;> simp [h]

theorem timer_loop_trace_two (s : Settings) (v : Nat) (h : s.interval_minutes = some v) :
    timer_loop_trace s 2 =
      [LoopEvent.play] ++ List.replicate (v * 60) LoopEvent.sleep1 ++
        [LoopEvent.play] ++ List.replicate (v * 60) LoopEvent.sleep1 := by
  simp [timer_loop_trace, Settings.getIntervalMinutes, h, wait_trace_const_true]

/-! The claims. -/

/-- C2, counterexample: a settings file that exists but whose parsed record is
missing both fields is returned by `load_settings` with the fields still
missing, and the file content is left as is — no defaults are merged in and
no merged record is written back. -/
theorem claim_C2_cex :
    (load_settings (some { tone_file := none, interval_minutes := none })).1.interval_minutes
        = none ∧
    (load_settings (some { tone_file := none, interval_minutes := none })).1.tone_file = none ∧
    (load_settings (some { tone_file := none, interval_minutes := none })).2
        = some { tone_file := none, interval_minutes := none } :=
  ⟨rfl, rfl, rfl⟩

/-- C2, amended: when the settings file exists, `load_settings` returns the
parsed record unchanged and leaves the file untouched, even if one or both
recognized fields are absent; defaults are substituted only when the file
itself is missing, or at read time by the consumers of the record. -/
theorem claim_C2 (s : Settings) : load_settings (some s) = (s, some s) := rfl

/-- C3: when no settings file exists at the resolved path, `load_settings`
writes a file containing exactly the default record
(tone_file "tone.wav", interval_minutes 10), pretty-printed with indent 4,
and returns that same record. -/
theorem claim_C3 :
    load_settings none = (default_settings, some default_settings) ∧
    default_settings = { tone_file := some "tone.wav", interval_minutes := some 10 } ∧
    dump_settings default_settings =
      "\x7b\n    \"tone_file\": \"tone.wav\",\n    \"interval_minutes\": 10\n\x7d" :=
  ⟨rfl, rfl, rfl⟩

/-- C4, counterexample: when the resolved audio file does not exist but
`self.icon` is not set (as in `--test` mode, where playback runs before any
tray icon exists), `play_audio` returns failure yet emits ZERO file-not-found
notifications, not exactly one. -/
theorem claim_C4_cex :
    (play_audio [] "C:" default_settings false AudioResult.success).returned = false ∧
    (play_audio [] "C:" default_settings false AudioResult.success).notifications.count
        Notification.fileNotFound = 0 := by
  exact ⟨rfl, rfl⟩

/-- C4, amended: whenever the resolved audio file does not exist, `play_audio`
returns failure and raises nothing to its caller; it emits exactly one
file-not-found notification when the tray icon is present, and none when it
is not (the error is then only logged). -/
theorem claim_C4 (fs : List String) (base : String) (s : Settings)
    (icon : Bool) (audio : AudioResult) (h : get_audio_path base s ∉ fs) :
    (play_audio fs base s icon audio).returned = false ∧
    (play_audio fs base s icon audio).raised = false ∧
    (play_audio fs base s icon audio).notifications =
      (if icon then [Notification.fileNotFound] else []) := by
  simp [play_audio, h]

/-- C4 witness: concrete missing file with the icon present. -/
theorem claim_C4_witness :
    (play_audio [] "C:" default_settings true AudioResult.success).returned = false ∧
    (play_audio [] "C:" default_settings true AudioResult.success).notifications =
      (if true then [Notification.fileNotFound] else []) :=
  ⟨(claim_C4 [] "C:" default_settings true AudioResult.success (by decide)).1,
   (claim_C4 [] "C:" default_settings true AudioResult.success (by decide)).2.2⟩

/-- C9: toggling the autostart entry twice (with registry access succeeding)
returns the entry to its original presence/absence state, whatever command
lines the two enables would write. -/
theorem claim_C9 (r : Registry) (cmd1 cmd2 : String) :
    is_startup_enabled (toggle_startup (toggle_startup r cmd1) cmd2) = is_startup_enabled r := by
  cases r with
  | mk e => cases e <;> rfl

/-- C5: `start_timer` is idempotent — a second call right after a first is a
no-op (same state, no effects), the state after a start is running, a double
start from a stopped state spawns exactly one loop thread, and `stop_timer`
on a stopped state is a no-op with no effects. -/
theorem claim_C5 (p : PlayerState) :
    start_timer (start_timer p).1 = ((start_timer p).1, []) ∧
    (start_timer p).1.running = true ∧
    (p.running = false →
      ((start_timer p).2 ++ (start_timer (start_timer p).1).2).count Action.startLoop = 1) ∧
    (p.running = false → stop_timer p = (p, [])) := by
  cases hr : p.running <;> cases hi : p.icon <;>
    simp [start_timer, stop_timer, hr, hi, List.count_cons]

/-- C5 witness: double start from the initial stopped state spawns one loop. -/
theorem claim_C5_witness :
    ((start_timer ⟨default_settings, false, false, false⟩).2 ++
      (start_timer (start_timer ⟨default_settings, false, false, false⟩).1).2).count
        Action.startLoop = 1 :=
  (claim_C5 ⟨default_settings, false, false, false⟩).2.2.1 rfl

/-- C6, counterexample: from the initial state, `start` then `stop` leaves
`running = false` while `timer_thread` is still non-null, because
`stop_timer` joins the thread but never resets `self.timer_thread` to
`None` — so "non-null iff running" fails in a reachable state. -/
theorem claim_C6_cex :
    (runOps (init_player none) [Op.start, Op.stop]).player.running = false ∧
    (runOps (init_player none) [Op.start, Op.stop]).player.timer_thread = true :=
  ⟨rfl, rfl⟩

/-- Preservation of the one-sided invariant by each command. -/
theorem applyOp_thread_inv (st : SysState) (op : Op)
    (h : st.player.running = true → st.player.timer_thread = true) :
    (applyOp st op).player.running = true → (applyOp st op).player.timer_thread = true := by
  cases op with
  | start =>
      cases hr : st.player.running with
      | true => intro _; simpa [applyOp, start_timer, hr] using h hr
      | false => simp [applyOp, start_timer, hr]
  | stop =>
      cases hr : st.player.running <;> simp [applyOp, stop_timer, hr]
  | setInterval v =>
      cases hr : st.player.running <;>
        simp [applyOp, set_interval, start_timer, stop_timer, hr]

/-- The invariant along any command sequence. -/
theorem runOps_thread_inv (st : SysState) (ops : List Op)
    (h : st.player.running = true → st.player.timer_thread = true) :
    (runOps st ops).player.running = true → (runOps st ops).player.timer_thread = true := by
  induction ops generalizing st with
  | nil => exact h
  | cons op ops ih => exact ih (applyOp st op) (applyOp_thread_inv st op h)

/-- C6, amended: in every state reachable from the initial state by
`start`/`stop`/`setInterval` commands, `running = true` implies the
`timer_thread` handle is non-null.  The converse direction of the claimed
iff is false (see the counterexample): after a stop the stale handle stays
non-null while `running` is false. -/
theorem claim_C6 (file : Option Settings) (ops : List Op)
    (h : (runOps (init_player file) ops).player.running = true) :
    (runOps (init_player file) ops).player.timer_thread = true :=
  runOps_thread_inv (init_player file) ops (fun hr => absurd hr (by simp [init_player])) h

/-- C6 witness: after a single start the loop is running with a live handle. -/
theorem claim_C6_witness :
    (runOps (init_player none) [Op.start]).player.timer_thread = true :=
  claim_C6 none [Op.start] rfl

/-- C7: the cycle wait of `timer_loop` sleeps `interval_minutes * 60` whole
seconds when the running flag stays set (one 1-second tick per check), and
if the flag is observed false at check `k` the wait performs at most `k`
ticks — a stop during the wait is honored within about one second instead
of waiting out the rest of the interval. -/
theorem claim_C7 (s : Settings) (running : Nat → Bool) :
    ((∀ i, running i = true) →
      wait_loop (s.getIntervalMinutes * 60) running = s.getIntervalMinutes * 60) ∧
    (∀ k, running k = false → wait_loop (s.getIntervalMinutes * 60) running ≤ k) := by
  constructor
  · intro h
    simp [wait_loop, wait_trace_of_true _ running h]
  · intro k hk
    exact wait_loop_le_of_false _ running k hk

/-- C7 witness: a 3-minute interval waits 180 ticks when never stopped, and at
most 7 ticks when the flag goes false at check 7. -/
theorem claim_C7_witness :
    wait_loop (Settings.getIntervalMinutes ⟨none, some 3⟩ * 60) (fun _ => true) =
      Settings.getIntervalMinutes ⟨none, some 3⟩ * 60 ∧
    wait_loop (Settings.getIntervalMinutes ⟨none, some 3⟩ * 60) (fun i => decide (i < 7)) ≤ 7 :=
  ⟨(claim_C7 ⟨none, some 3⟩ (fun _ => true)).1 (fun i => rfl),
   (claim_C7 ⟨none, some 3⟩ (fun i => decide (i < 7))).2 7 (by decide)⟩

/-- C8: no playback outcome can crash the background loop — `play_audio`
raises on no input, so a bounded run of `timer_loop` never ends in `crashed`;
while the running flag stays set the loop performs every cycle (one playback
attempt each, whatever the outcomes), and it ends on its own only when some
check of the flag observes false. -/
theorem claim_C8 (fuel : Nat) (running : Nat → Bool) (env : Nat → CycleEnv) :
    (timer_loop_run fuel running env).1 ≠ LoopStatus.crashed ∧
    ((∀ i, running i = true) →
      (timer_loop_run fuel running env).1 = LoopStatus.stillRunning ∧
      (timer_loop_run fuel running env).2 = fuel) ∧
    (∀ k, k < fuel → running k = false →
      (timer_loop_run fuel running env).1 = LoopStatus.stoppedFlag) := by
  induction fuel generalizing running env with
  | zero =>
      refine ⟨by simp [timer_loop_run], fun _ => ⟨rfl, rfl⟩, fun k hk _ => absurd hk (by omega)⟩
  | succ fuel ih =>
      by_cases h0 : running 0 = true
      · have hrun : timer_loop_run (fuel + 1) running env =
            ((timer_loop_run fuel (fun i => running (i + 1)) (fun i => env (i + 1))).1,
             (timer_loop_run fuel (fun i => running (i + 1)) (fun i => env (i + 1))).2 + 1) := by
          simp [timer_loop_run, h0, play_audio_never_raises]
        obtain ⟨ihc, ihr, ihs⟩ := ih (fun i => running (i + 1)) (fun i => env (i + 1))
        refine ⟨?_, ?_, ?_⟩
        · rw [hrun]; exact ihc
        · intro hall
          obtain ⟨hs, hc⟩ := ihr (fun i => hall (i + 1))
          rw [hrun]
          exact ⟨hs, by omega⟩
        · intro k hk hkf
          cases k with
          | zero => rw [h0] at hkf; cases hkf
          | succ k =>
              rw [hrun]
              exact ihs k (by omega) hkf
      · have h0' : running 0 = false := by
          cases hval : running 0
          · rfl
          · exact absurd hval h0
        refine ⟨by simp [timer_loop_run, h0'], ?_, ?_⟩
        · intro hall
          exact absurd (hall 0) (by simp [h0'])
        · intro k _ _
          simp [timer_loop_run, h0']

/-- C8 witness: two cycles with a missing audio file (every attempt fails)
still run to fuel exhaustion when the flag stays set, and a flag observed
false at check 1 ends the loop as `stoppedFlag`. -/
theorem claim_C8_witness :
    (timer_loop_run 2 (fun _ => true)
      (fun _ => ⟨default_settings, [], "C:", true, AudioResult.success⟩)).1 =
        LoopStatus.stillRunning ∧
    (timer_loop_run 2 (fun i => decide (i < 1))
      (fun _ => ⟨default_settings, [], "C:", true, AudioResult.success⟩)).1 =
        LoopStatus.stoppedFlag :=
  ⟨((claim_C8 2 (fun _ => true)
      (fun _ => ⟨default_settings, [], "C:", true, AudioResult.success⟩)).2.1 (fun i => rfl)).1,
   (claim_C8 2 (fun i => decide (i < 1))
      (fun _ => ⟨default_settings, [], "C:", true, AudioResult.success⟩)).2.2 1
        (by omega) (by decide)⟩

/-- C10: every consumer of the settings record substitutes the defaults at
read time when a field is absent and stays total — the audio path resolves
against "tone.wav", the loop's interval read yields 10 (so the first cycle
is one play then 600 one-second ticks), and the start notification carries
10 — even though `load_settings` returns an existing file's record with the
fields still missing. -/
theorem claim_C10 (base : String) (s : Settings) :
    (s.tone_file = none → get_audio_path base s = base ++ "/" ++ "tone.wav") ∧
    (s.interval_minutes = none →
      s.getIntervalMinutes = 10 ∧
      timer_loop_trace s 1 = LoopEvent.play :: List.replicate 600 LoopEvent.sleep1 ∧
      (∀ p : PlayerState, p.settings = s → p.running = false → p.icon = true →
        (start_timer p).2 = [Action.startLoop, Action.notifyStarted 10])) ∧
    load_settings (some s) = (s, some s) := by
  refine ⟨?_, ?_, rfl⟩
  · intro ht
    simp [get_audio_path, Settings.getToneFile, ht]
  · intro hi
    have h10 : s.getIntervalMinutes = 10 := by simp [Settings.getIntervalMinutes, hi]
    refine ⟨h10, ?_, ?_⟩
    · show LoopEvent.play ::
          (wait_trace (s.getIntervalMinutes * 60) (fun _ => true) ++ timer_loop_trace s 0) = _
      rw [h10, wait_trace_const_true, show timer_loop_trace s 0 = [] from rfl, List.append_nil]
    · intro p hs hr hicon
      simp [start_timer, hr, hicon, hs, Settings.getIntervalMinutes, hi]

/-- C10 witness: a record missing both fields resolves the default path and
the default interval. -/
theorem claim_C10_witness :
    get_audio_path "C:" ⟨none, none⟩ = "C:" ++ "/" ++ "tone.wav" ∧
    Settings.getIntervalMinutes ⟨none, none⟩ = 10 :=
  ⟨(claim_C10 "C:" ⟨none, none⟩).1 rfl, ((claim_C10 "C:" ⟨none, none⟩).2.1 rfl).1⟩

/-- C1: for every positive `v`, `set_interval v` stores `interval_minutes = v`
in the in-memory record and writes the full record to the settings file; if
the loop was running it performs save / stop / half-second pause / start, the
restarted loop's trace being one immediate playback followed by exactly
`v * 60` one-second ticks before the next playback; if the loop was stopped,
only the menu is refreshed (no loop start, no stop) and the running flag and
thread handle are unchanged. -/
theorem claim_C1 (st : SysState) (v : Nat) (_hv : 0 < v) :
    (set_interval st v).1.player.settings.interval_minutes = some v ∧
    (set_interval st v).1.file = some (set_interval st v).1.player.settings ∧
    (st.player.running = true →
      (set_interval st v).1.player.running = true ∧
      (set_interval st v).2 =
        [Action.saveSettings (set_interval st v).1.player.settings, Action.stopLoop,
          Action.pauseHalf, Action.startLoop] ++
          (if st.player.icon then [Action.notifyStarted v] else []) ++
          (if st.player.icon then [Action.notifyIntervalUpdated v] else []) ∧
      timer_loop_trace (set_interval st v).1.player.settings 2 =
        [LoopEvent.play] ++ List.replicate (v * 60) LoopEvent.sleep1 ++
          [LoopEvent.play] ++ List.replicate (v * 60) LoopEvent.sleep1) ∧
    (st.player.running = false →
      (set_interval st v).1.player.running = false ∧
      (set_interval st v).1.player.timer_thread = st.player.timer_thread ∧
      Action.startLoop ∉ (set_interval st v).2 ∧
      (set_interval st v).2 =
        [Action.saveSettings (set_interval st v).1.player.settings] ++
          (if st.player.icon then [Action.menuRefresh] else []) ++
          (if st.player.icon then [Action.notifyIntervalUpdated v] else [])) := by
  have htrace := timer_loop_trace_two
    { st.player.settings with interval_minutes := some v } v rfl
  cases hr : st.player.running <;> cases hi : st.player.icon <;>
    simp [set_interval, start_timer, stop_timer, Settings.getIntervalMinutes, hr, hi, htrace]

/-- C1 witness: setting the interval to 5 on a running player with an icon. -/
theorem claim_C1_witness :
    ((set_interval ⟨⟨default_settings, true, true, true⟩, some default_settings⟩
      5).1).player.settings.interval_minutes = some 5 ∧
    ((set_interval ⟨⟨default_settings, true, true, true⟩, some default_settings⟩
      5).1).player.running = true :=
  ⟨(claim_C1 ⟨⟨default_settings, true, true, true⟩, some default_settings⟩ 5 (by decide)).1,
   ((claim_C1 ⟨⟨default_settings, true, true, true⟩, some default_settings⟩ 5
      (by decide)).2.2.1 rfl).1⟩

end Soundbar
